import Mathlib

/-!
Verification of the battle-engine portion of a card-battle web service.

The server code (`src/server/server.js`, class `DataSourceJson`) is embedded
shallowly: each JavaScript function the claims mention becomes a Lean
definition over explicit data.  JavaScript runtime behaviour that matters to
the claims is made explicit:

* a field that may be `undefined` becomes an `Option`;
* a callback that can throw (e.g. calling `.trim()` on `undefined`, or
  `.some` on a value that is not an array) becomes an `Except`-valued
  function, and the `try`/`catch` block around a batch becomes the
  corresponding `Except` propagation;
* `parseInt` becomes `jsParseInt : String → Option Int`, where `none`
  stands for `NaN`;
* JavaScript truthiness of strings (`""` is falsy) is modelled explicitly.

Components of the engine whose code lives outside the data-source file
(the GraphQL resolver layer with the round-resolution function and the
state-machine guards, and the `BattleState` enum) are modelled from the
specification; each such definition carries a doc comment beginning
`Modelled from the spec:`.
-/

deriving instance DecidableEq for Except

namespace CardBattle

/-- JavaScript truthiness of a possibly-absent string: `undefined` and the
empty string are falsy, every other string is truthy. -/
def jsTruthyStr : Option String → Bool
  | none => false
  | some s => s ≠ ""

/-- JavaScript `String.prototype.trim`: drop leading and trailing
whitespace. -/
def jsTrim (s : String) : String :=
  String.mk (((s.toList.dropWhile Char.isWhitespace).reverse.dropWhile
    Char.isWhitespace).reverse)

/-- JavaScript `parseInt` on a string (radix 10, no hex prefix handling,
which matches the numeric damage/level/hp strings of the catalog): skip
leading whitespace, read an optional sign and then a maximal run of decimal
digits; `none` models the `NaN` result when no digit is read. -/
def jsParseInt (s : String) : Option Int :=
  let cs := s.toList.dropWhile Char.isWhitespace
  let signed : Int × List Char :=
    match cs with
    | '-' :: t => (-1, t)
    | '+' :: t => (1, t)
    | _ => (1, cs)
  let ds := signed.2.takeWhile Char.isDigit
  if ds.isEmpty then none
  else some (signed.1 * (ds.foldl (fun a c => a * 10 + (c.toNat - 48)) (0 : Nat) : Nat))

/-- `parseInt` applied to a possibly-absent field: `parseInt(undefined)` is
`NaN`, i.e. `none`. -/
def jsParseIntOpt (s : Option String) : Option Int :=
  s.bind jsParseInt

/-- One entry of the `attacks` array of a raw catalog record; `damage` may be
absent. -/
structure RawAttack where
  name : Option String
  damage : Option String
deriving Repr, DecidableEq

/-- The `attacks` field of a raw catalog record as the JavaScript filter sees
it: absent (falsy), an actual array, or some other truthy value on which
calling `.some` / `.find` throws a `TypeError`. -/
inductive AttacksField where
  | absent
  | list (attacks : List RawAttack)
  | nonArrayTruthy
deriving Repr, DecidableEq

/-- A raw catalog record, as parsed from a card data file and as stored in
the `card` collection (the import writes the raw record unchanged). -/
structure RawCard where
  id : String
  name : Option String
  supertype : Option String
  level : Option String
  hp : Option String
  attacks : AttacksField
  rarity : Option String
  images : Option String
deriving Repr, DecidableEq

/-- The attack predicate of the import filter
(`attack.damage && attack.damage.trim() !== ""`): the damage field must be
present and truthy, and must not trim to the empty string. -/
def attackQualifies (a : RawAttack) : Bool :=
  match a.damage with
  | none => false
  | some s => s ≠ "" && jsTrim s ≠ ""

/-- The record predicate of the import filter in `importCardsFromFile`
(`card.supertype === "Pokémon" && card.attacks && card.attacks.some(...)`).
The result is `Except`-valued because evaluating `.some` on a truthy
non-array `attacks` value throws. -/
def cardFilterPred (c : RawCard) : Except Unit Bool :=
  if c.supertype = some "Pokémon" then
    match c.attacks with
    | .absent => .ok false
    | .list as => .ok (as.any attackQualifies)
    | .nonArrayTruthy => .error ()
  else
    .ok false

/-- `Array.prototype.filter` with a predicate that can throw: elements are
tested left to right and the first throw aborts the whole call. -/
def filterCards : List RawCard → Except Unit (List RawCard)
  | [] => .ok []
  | c :: cs =>
    match cardFilterPred c with
    | .error e => .error e
    | .ok b =>
      match filterCards cs with
      | .error e => .error e
      | .ok rest => .ok (if b then c :: rest else rest)

/-- `importCardsFromFile`, after the file has been read and parsed into a
batch of raw records: filter the batch and bulk-upsert the surviving
records.  The single `try`/`catch` around the body means any throw inside
the filter aborts the import of this file before anything is written; the
`.ok` payload is the list of records written to the `card` collection. -/
def importCardsFromFile (batch : List RawCard) : Except String (List RawCard) :=
  match filterCards batch with
  | .error _ => .error "Error importing cards from file"
  | .ok filtered => .ok filtered

/-- The records a file import actually stores: the filtered batch on
success, nothing at all when the import was aborted by a throw. -/
def storedCards (batch : List RawCard) : List RawCard :=
  match importCardsFromFile batch with
  | .ok filtered => filtered
  | .error _ => []

/-- The attack condition in the words of the specification: the damage
field is present and non-blank after trimming. -/
def specAttackNonBlank (a : RawAttack) : Bool :=
  match a.damage with
  | some s => jsTrim s ≠ ""
  | none => false

/-- The eligibility predicate in the words of the specification, for
comparison with the code filter: the category field equals the creature
category and the record has at least one attack whose damage field is
present and non-blank after trimming. -/
def specNormalizeAccepts (c : RawCard) : Bool :=
  c.supertype == some "Pokémon" &&
    (match c.attacks with
     | .list as => as.any specAttackNonBlank
     | _ => false)

/-- Errors `_decorateCard` can raise: a `TypeError` from evaluating
`attack.damage.trim()` when `damage` is absent (or from calling `.find` on
a missing or non-array `attacks` value), or the explicit
`No valid attack found` error. -/
inductive DecorateError where
  | typeError
  | noValidAttack (id : String)
deriving Repr, DecidableEq

/-- The attack predicate of `_decorateCard`
(`attack.damage.trim() !== ""`): unlike the import filter it does not guard
against an absent damage field, so it throws on such an attack. -/
def decoratePred (a : RawAttack) : Except Unit Bool :=
  match a.damage with
  | none => .error ()
  | some s => .ok (jsTrim s ≠ "")

/-- `Array.prototype.find` with a predicate that can throw: elements are
tested left to right, the first throw aborts, `none` means no match. -/
def jsFindAttack : List RawAttack → Except Unit (Option RawAttack)
  | [] => .ok none
  | a :: as =>
    match decoratePred a with
    | .error e => .error e
    | .ok true => .ok (some a)
    | .ok false => jsFindAttack as

/-- The canonical single attack of a decorated card. -/
structure Attack where
  name : Option String
  damage : Option Int
deriving Repr, DecidableEq

/-- A decorated (normalized) card as produced by `_decorateCard`:
exactly one attack, integer-parsed numeric fields (`none` models `NaN`). -/
structure Card where
  id : String
  name : Option String
  level : Option Int
  hp : Option Int
  attack : Attack
  rarity : Option String
  images : Option String
deriving Repr, DecidableEq

/-- `_decorateCard`: pick the first attack whose damage trims to a
non-empty string (throwing a `TypeError` if an attack with an absent damage
field is reached first, or if `attacks` is not an array), fail with
`No valid attack found` when no attack matches, and otherwise project the
record to a `Card` with that single attack. -/
def decorateCard (c : RawCard) : Except DecorateError Card :=
  match c.attacks with
  | .list as =>
    match jsFindAttack as with
    | .error _ => .error .typeError
    | .ok none => .error (.noValidAttack c.id)
    | .ok (some a) =>
      .ok { id := c.id
            name := c.name
            level := jsParseIntOpt c.level
            hp := jsParseIntOpt c.hp
            attack := { name := a.name, damage := jsParseIntOpt a.damage }
            rarity := c.rarity
            images := c.images }
  | _ => .error .typeError


/-- Modelled from the spec: the battle lifecycle states of the
`BattleState` enum (the enum file itself is outside the data-source file).
`REQUESTED` is initial, `COMPLETED` is terminal. -/
inductive BattleState where
  | REQUESTED
  | ACTIVE
  | COMPLETED
deriving Repr, DecidableEq

/-- A battle-scoped card instance: a normalized card together with the
mutable per-battle hit points. -/
structure BattleCard where
  id : String
  name : Option String
  hp : Int
  currentHp : Int
  attackDamage : Int
deriving Repr, DecidableEq

/-- Which side wins one resolved round. -/
inductive RoundWinner where
  | playerOne
  | playerTwo
  | tie
deriving Repr, DecidableEq

/-- One resolved round as recorded in the `rounds` sequence of a battle. -/
structure Round where
  index : Nat
  cardOneId : String
  cardTwoId : String
  damageToOne : Int
  damageToTwo : Int
  winner : RoundWinner
deriving Repr, DecidableEq

/-- A battle document as stored in the `battle` collection.  `createBattle`
always writes `playerOneCards`; `playerTwoCards`, `rounds` and `winnerId`
are absent until some update sets them. -/
structure BattleDoc where
  id : String
  state : BattleState
  playerOneId : String
  playerTwoId : Option String
  playerOneCards : List BattleCard
  playerTwoCards : Option (List BattleCard)
  rounds : Option (List Round)
  winnerId : Option String
deriving Repr, DecidableEq

/-- `createBattle`: insert a new battle document holding exactly the state
`REQUESTED`, the two player ids as passed by the caller, and the player-one
roster; no other field is written.  `newId` stands for the object id the
insert generates. -/
def createBattle (playerOneId : String) (playerTwoId : Option String)
    (playerOneCards : List BattleCard) (newId : String) : BattleDoc :=
  { id := newId
    state := BattleState.REQUESTED
    playerOneId := playerOneId
    playerTwoId := playerTwoId
    playerOneCards := playerOneCards
    playerTwoCards := none
    rounds := none
    winnerId := none }

/-- The argument record of `updateBattle`; a `none` field was not passed.
There is no `playerTwoId` field: `updateBattle` never touches it. -/
structure BattleUpdate where
  state : Option BattleState
  playerOneCards : Option (List BattleCard)
  playerTwoCards : Option (List BattleCard)
  rounds : Option (List Round)
  winnerId : Option String
deriving Repr, DecidableEq

/-- The `$set` document built by `updateBattle` applied to a battle
document: each field is overwritten exactly when it was passed and is
truthy (an enum state string and a non-empty array are always truthy; a
passed `winnerId` of `""` is falsy and therefore dropped). -/
def applyUpdateDoc (b : BattleDoc) (u : BattleUpdate) : BattleDoc :=
  { b with
    state := match u.state with
             | some s => s
             | none => b.state
    playerOneCards := match u.playerOneCards with
                      | some l => l
                      | none => b.playerOneCards
    playerTwoCards := match u.playerTwoCards with
                      | some l => some l
                      | none => b.playerTwoCards
    rounds := match u.rounds with
              | some rs => some rs
              | none => b.rounds
    winnerId := match u.winnerId with
                | some w => if w = "" then b.winnerId else some w
                | none => b.winnerId }

/-- `updateBattle` over the battle collection: `findOneAndUpdate` matches a
battle by its id only and applies the `$set` document; the only failure is
the absence of a battle with that id.  The result is the updated document
together with the collection after the write. -/
def updateBattle (battles : List BattleDoc) (battleId : String) (u : BattleUpdate) :
    Except String (BattleDoc × List BattleDoc) :=
  match battles.find? (fun b => b.id == battleId) with
  | none => .error "No battle found with the provided ID"
  | some b =>
    .ok (applyUpdateDoc b u,
         battles.map (fun x => if x.id == battleId then applyUpdateDoc x u else x))

/-- Whether a possibly-absent roster contains a card with the given id
(the Mongo condition `"playerOneCards.id": cardId` on an array field;
an absent field matches nothing). -/
def rosterHas (roster : Option (List BattleCard)) (cardId : String) : Bool :=
  match roster with
  | some l => l.any (fun c => c.id == cardId)
  | none => false

/-- The `$or` condition of the `findOne` in `getBattleCard`: the battle
holds the card in either roster. -/
def battleContains (b : BattleDoc) (cardId : String) : Bool :=
  rosterHas (some b.playerOneCards) cardId || rosterHas b.playerTwoCards cardId

/-- Failures of `getBattleCard`: the thrown
`No battle containing a battle card with the given id found` error, or a
`TypeError` from calling `.find` on an absent `playerTwoCards`. -/
inductive LookupError where
  | notFound
  | typeError
deriving Repr, DecidableEq

/-- `getBattleCard`: return `null` on a falsy id; otherwise find the first
battle whose rosters contain the card id (throwing `notFound` when there is
none), then extract the card with
`battle.playerOneCards.find(...) || battle.playerTwoCards.find(...)`,
which checks the player-one roster first, and return the match, or `null`
(`.ok none`) when neither roster matches inside the found battle. -/
def getBattleCard (battles : List BattleDoc) (battleCardId : String) :
    Except LookupError (Option BattleCard) :=
  if battleCardId = "" then .ok none
  else
    match battles.find? (fun b => battleContains b battleCardId) with
    | none => .error .notFound
    | some b =>
      match b.playerOneCards.find? (fun c => c.id == battleCardId) with
      | some c => .ok (some c)
      | none =>
        match b.playerTwoCards with
        | none => .error .typeError
        | some l =>
          match l.find? (fun c => c.id == battleCardId) with
          | some c => .ok (some c)
          | none => .ok none

/-- Hit points after a hit, clamped at 0. -/
def clampHp (x : Int) : Int := max x 0

/-- The outcome of one resolved round between a player-one card and a
player-two card: the damage dealt each way, the two cards after the hits,
the derived eliminations, and the local round winner. -/
structure RoundResult where
  damageToOne : Int
  damageToTwo : Int
  newOne : BattleCard
  newTwo : BattleCard
  eliminatedOne : Bool
  eliminatedTwo : Bool
  winner : RoundWinner
deriving Repr, DecidableEq

/-- Modelled from the spec: `resolveRound` of the round-resolution engine
(the resolver layer holding it is outside the data-source file).  Each
attack damage is subtracted from the current hp of the other card, both
computed from the pre-round hp and clamped at 0; the winner is the side
that survives while the other does not, otherwise the round is a tie. -/
def resolveRound (one two : BattleCard) : RoundResult :=
  let hpOne := clampHp (one.currentHp - two.attackDamage)
  let hpTwo := clampHp (two.currentHp - one.attackDamage)
  { damageToOne := two.attackDamage
    damageToTwo := one.attackDamage
    newOne := { one with currentHp := hpOne }
    newTwo := { two with currentHp := hpTwo }
    eliminatedOne := decide (hpOne ≤ 0)
    eliminatedTwo := decide (hpTwo ≤ 0)
    winner :=
      if hpOne > 0 ∧ hpTwo ≤ 0 then .playerOne
      else if hpTwo > 0 ∧ hpOne ≤ 0 then .playerTwo
      else .tie }

/-- Swapping the two sides of a round winner. -/
def mirrorWinner : RoundWinner → RoundWinner
  | .playerOne => .playerTwo
  | .playerTwo => .playerOne
  | .tie => .tie

/-- A battle as the state machine sees it (all fields materialized). -/
structure Battle where
  id : String
  state : BattleState
  playerOneId : String
  playerTwoId : Option String
  playerOneCards : List BattleCard
  playerTwoCards : List BattleCard
  rounds : List Round
  winnerId : Option String
deriving Repr, DecidableEq

/-- The two state-machine transitions a caller can request: an opponent
join carrying the player-two id and roster, or a round submission naming
one card of each player. -/
inductive BattleOp where
  | join (playerTwoId : String) (roster : List BattleCard)
  | submitRound (cardOneId : String) (cardTwoId : String)
deriving Repr, DecidableEq

/-- Failures of a requested state-machine transition. -/
inductive TransitionError where
  | invalidTransition
  | validationError
deriving Repr, DecidableEq

/-- Whether every card of a roster is eliminated. -/
def allEliminated (roster : List BattleCard) : Bool :=
  roster.all (fun c => c.currentHp ≤ 0)

/-- Replace the card with the given id by its post-round version. -/
def updateRoster (roster : List BattleCard) (c : BattleCard) : List BattleCard :=
  roster.map (fun x => if x.id == c.id then c else x)

/-- Modelled from the spec: the battle state machine (the resolver layer
holding the guards is outside the data-source file).  A join is legal only
from `REQUESTED`, with a distinct opponent and a non-empty roster, and
moves the battle to `ACTIVE`.  A round submission is legal only from
`ACTIVE`, with each named card present in the roster of its player and not
yet eliminated; it resolves the round, applies the damage, appends one
round record, and, when a roster is fully eliminated or the round cap
`maxRounds` is reached, completes the battle, setting `winnerId` to the
player with a surviving card and leaving it unset on a draw.  Any other
requested transition fails and leaves the battle unchanged. -/
def applyOp (maxRounds : Nat) (b : Battle) : BattleOp → Except TransitionError Battle
  | .join pid roster =>
    if b.state ≠ BattleState.REQUESTED then .error .invalidTransition
    else if pid = b.playerOneId then .error .validationError
    else if roster.isEmpty then .error .validationError
    else .ok { b with state := BattleState.ACTIVE
                      playerTwoId := some pid
                      playerTwoCards := roster }
  | .submitRound cardOneId cardTwoId =>
    if b.state ≠ BattleState.ACTIVE then .error .invalidTransition
    else
      match b.playerOneCards.find? (fun c => c.id == cardOneId),
            b.playerTwoCards.find? (fun c => c.id == cardTwoId) with
      | some one, some two =>
        if one.currentHp ≤ 0 ∨ two.currentHp ≤ 0 then .error .validationError
        else
          let r := resolveRound one two
          let newOneCards := updateRoster b.playerOneCards r.newOne
          let newTwoCards := updateRoster b.playerTwoCards r.newTwo
          let newRounds := b.rounds ++
            [{ index := b.rounds.length
               cardOneId := cardOneId
               cardTwoId := cardTwoId
               damageToOne := r.damageToOne
               damageToTwo := r.damageToTwo
               winner := r.winner }]
          let oneWiped := allEliminated newOneCards
          let twoWiped := allEliminated newTwoCards
          if oneWiped ∨ twoWiped ∨ newRounds.length ≥ maxRounds then
            .ok { b with state := BattleState.COMPLETED
                         playerOneCards := newOneCards
                         playerTwoCards := newTwoCards
                         rounds := newRounds
                         winnerId :=
                           if ¬ oneWiped ∧ twoWiped then some b.playerOneId
                           else if oneWiped ∧ ¬ twoWiped then b.playerTwoId
                           else none }
          else
            .ok { b with playerOneCards := newOneCards
                         playerTwoCards := newTwoCards
                         rounds := newRounds }
      | _, _ => .error .validationError

/-- Modelled from the spec: the battle produced by battle creation at the
state-machine level, before any transition. -/
def initialBattle (id playerOneId : String) (playerTwoId : Option String)
    (roster : List BattleCard) : Battle :=
  { id := id
    state := BattleState.REQUESTED
    playerOneId := playerOneId
    playerTwoId := playerTwoId
    playerOneCards := roster
    playerTwoCards := []
    rounds := []
    winnerId := none }

/-- The battles reachable by the state machine: a freshly created battle,
and any battle obtained from a reachable one by a successful transition. -/
inductive Reachable (maxRounds : Nat) : Battle → Prop where
  | created (id playerOneId : String) (playerTwoId : Option String)
      (roster : List BattleCard) :
      Reachable maxRounds (initialBattle id playerOneId playerTwoId roster)
  | step {b b' : Battle} (op : BattleOp) :
      Reachable maxRounds b → applyOp maxRounds b op = .ok b' →
      Reachable maxRounds b'

/-! ### Concrete records used by witnesses and counterexamples -/

/-- An eligible creature record with one plainly numeric attack. -/
def goodCardExample : RawCard :=
  { id := "base1-1"
    name := some "Alakazam"
    supertype := some "Pokémon"
    level := some "42"
    hp := some "80"
    attacks := .list [{ name := some "Confuse Ray", damage := some "30" }]
    rarity := some "Rare Holo"
    images := some "alakazam.png" }

/-- A record whose `attacks` value is truthy but not an array, so the
filter callback throws on it. -/
def malformedCardExample : RawCard :=
  { id := "base1-bad"
    name := some "Broken"
    supertype := some "Pokémon"
    level := some "1"
    hp := some "30"
    attacks := .nonArrayTruthy
    rarity := none
    images := none }

/-- An eligible record whose first attack has no damage field while its
second attack has the non-blank damage `"20"`. -/
def firstDamageAbsentExample : RawCard :=
  { id := "base1-5"
    name := some "Clefairy"
    supertype := some "Pokémon"
    level := some "14"
    hp := some "40"
    attacks := .list [{ name := some "Sing", damage := none },
                      { name := some "Pound", damage := some "20" }]
    rarity := some "Rare"
    images := some "clefairy.png" }

/-- An eligible record whose first attack has no damage field while its
second attack has the non-blank damage `"30"`; a second instance of the
shape the import filter accepts but decoration chokes on. -/
def storedUndecoratableExample : RawCard :=
  { id := "base1-7"
    name := some "Squirtle"
    supertype := some "Pokémon"
    level := some "8"
    hp := some "40"
    attacks := .list [{ name := some "Withdraw", damage := none },
                      { name := some "Bubble", damage := some "30" }]
    rarity := some "Common"
    images := some "squirtle.png" }

/-- An attack list whose first damage string is blank and whose second is
`"30"`; all damage fields are present. -/
def blankFirstAttacksList : List RawAttack :=
  [{ name := some "Hypnosis", damage := some " " },
   { name := some "Dream Eater", damage := some "30" }]

/-- An eligible record whose first attack has a blank damage string and
whose second attack has damage `"30"`; all damage fields are present. -/
def blankFirstDamageExample : RawCard :=
  { id := "base1-9"
    name := some "Haunter"
    supertype := some "Pokémon"
    level := some "22"
    hp := some "60"
    attacks := .list blankFirstAttacksList
    rarity := some "Uncommon"
    images := some "haunter.png" }

/-! ### Concrete battle data used by witnesses and counterexamples -/

/-- A battle card of player one. -/
def battleCardOneExample : BattleCard :=
  { id := "bc1", name := some "Pikachu", hp := 60, currentHp := 60, attackDamage := 20 }

/-- A battle card of player two. -/
def battleCardTwoExample : BattleCard :=
  { id := "bc2", name := some "Eevee", hp := 50, currentHp := 50, attackDamage := 30 }

/-- An active battle document holding one card per roster. -/
def activeDocExample : BattleDoc :=
  { id := "b2"
    state := BattleState.ACTIVE
    playerOneId := "u1"
    playerTwoId := some "u2"
    playerOneCards := [battleCardOneExample]
    playerTwoCards := some [battleCardTwoExample]
    rounds := some []
    winnerId := none }

/-- One recorded round. -/
def roundExample : Round :=
  { index := 0, cardOneId := "bc1", cardTwoId := "bc2"
    damageToOne := 30, damageToTwo := 20, winner := RoundWinner.tie }

/-- The update a first writer performs: complete the battle with a winner. -/
def completingUpdateExample : BattleUpdate :=
  { state := some BattleState.COMPLETED
    playerOneCards := none, playerTwoCards := none
    rounds := none, winnerId := some "u1" }

/-- The update a second writer computed from a stale `ACTIVE` read: append
a round and keep the battle active. -/
def staleRoundUpdateExample : BattleUpdate :=
  { state := some BattleState.ACTIVE
    playerOneCards := none, playerTwoCards := none
    rounds := some [roundExample], winnerId := none }

/-- `activeDocExample` after the completing update. -/
def completedDocExample : BattleDoc :=
  { activeDocExample with
    state := BattleState.COMPLETED
    winnerId := some "u1" }

/-- `completedDocExample` after the stale round update: back in `ACTIVE`
with a winner id still set. -/
def staleAppliedDocExample : BattleDoc :=
  { completedDocExample with
    state := BattleState.ACTIVE
    rounds := some [roundExample] }


/-- The freshly created battle of the completed-battle run. -/
def initialBattleExample : Battle :=
  initialBattle "b1" "u1" none
    [{ id := "c1", name := some "Machamp", hp := 100, currentHp := 100, attackDamage := 50 }]

/-- The battle after the opponent joins with a one-card roster. -/
def joinedBattleExample : Battle :=
  { initialBattleExample with
    state := BattleState.ACTIVE
    playerTwoId := some "u2"
    playerTwoCards :=
      [{ id := "c2", name := some "Rattata", hp := 30, currentHp := 30, attackDamage := 10 }] }

/-- The battle after one round wipes the player-two roster: terminal with a
winner. -/
def completedBattleExample : Battle :=
  { joinedBattleExample with
    state := BattleState.COMPLETED
    playerOneCards :=
      [{ id := "c1", name := some "Machamp", hp := 100, currentHp := 90, attackDamage := 50 }]
    playerTwoCards :=
      [{ id := "c2", name := some "Rattata", hp := 30, currentHp := 0, attackDamage := 10 }]
    rounds :=
      [{ index := 0, cardOneId := "c1", cardTwoId := "c2"
         damageToOne := 10, damageToTwo := 50, winner := RoundWinner.playerOne }]
    winnerId := some "u1" }

/-! ### Helper lemmas about the import filter -/

theorem attackQualifies_eq_spec (a : RawAttack) :
    attackQualifies a = specAttackNonBlank a := by
  cases ha : a.damage with
  | none => simp [attackQualifies, specAttackNonBlank, ha]
  | some s =>
    simp only [attackQualifies, specAttackNonBlank, ha]
    by_cases hs : s = ""
    · subst hs; decide
    · simp [hs]

theorem cardFilterPred_welltyped (c : RawCard)
    (h : c.attacks ≠ AttacksField.nonArrayTruthy) :
    cardFilterPred c = .ok (specNormalizeAccepts c) := by
  have hfun : attackQualifies = specAttackNonBlank := funext attackQualifies_eq_spec
  unfold cardFilterPred specNormalizeAccepts
  by_cases hsup : c.supertype = some "Pokémon"
  · cases hatt : c.attacks with
    | absent => simp [hsup, hatt]
    | list as => simp [hsup, hatt, hfun]
    | nonArrayTruthy => exact absurd hatt h
  · simp [hsup]

theorem cardFilterPred_ok_true_iff (c : RawCard) :
    cardFilterPred c = .ok true ↔ specNormalizeAccepts c = true := by
  by_cases h : c.attacks = AttacksField.nonArrayTruthy
  · unfold cardFilterPred specNormalizeAccepts
    by_cases hsup : c.supertype = some "Pokémon" <;> simp [hsup, h]
  · rw [cardFilterPred_welltyped c h]
    constructor
    · intro he; exact Except.ok.inj he
    · intro he; rw [he]

theorem filterCards_ok_mem {batch stored : List RawCard}
    (h : filterCards batch = .ok stored) (c : RawCard) :
    c ∈ stored ↔ c ∈ batch ∧ cardFilterPred c = .ok true := by
  induction batch generalizing stored with
  | nil =>
    unfold filterCards at h
    have hst : ([] : List RawCard) = stored := Except.ok.inj h
    subst hst
    simp
  | cons c0 cs ih =>
    unfold filterCards at h
    cases hp : cardFilterPred c0 with
    | error e => rw [hp] at h; cases h
    | ok b =>
      rw [hp] at h
      cases hr : filterCards cs with
      | error e => rw [hr] at h; cases h
      | ok rest =>
        rw [hr] at h
        have hrec := ih hr
        cases b with
        | true =>
          simp only [if_pos] at h
          have hst := Except.ok.inj h
          subst hst
          simp only [List.mem_cons, hrec]
          constructor
          · rintro (rfl | ⟨hmem, hpred⟩)
            · exact ⟨Or.inl rfl, hp⟩
            · exact ⟨Or.inr hmem, hpred⟩
          · rintro ⟨rfl | hmem, hpred⟩
            · exact Or.inl rfl
            · exact Or.inr ⟨hmem, hpred⟩
        | false =>
          simp only [Bool.false_eq_true, if_false] at h
          have hst := Except.ok.inj h
          subst hst
          simp only [hrec, List.mem_cons]
          constructor
          · rintro ⟨hmem, hpred⟩
            exact ⟨Or.inr hmem, hpred⟩
          · rintro ⟨rfl | hmem, hpred⟩
            · rw [hp] at hpred
              simp at hpred
            · exact ⟨hmem, hpred⟩

theorem filterCards_welltyped (batch : List RawCard)
    (h : ∀ c ∈ batch, c.attacks ≠ AttacksField.nonArrayTruthy) :
    filterCards batch = .ok (batch.filter specNormalizeAccepts) := by
  induction batch with
  | nil => rfl
  | cons c cs ih =>
    have hc := cardFilterPred_welltyped c (h c (by simp))
    unfold filterCards
    rw [hc, ih (fun x hx => h x (by simp [hx]))]
    cases hb : specNormalizeAccepts c <;> simp [List.filter_cons, hb]

/-! ### Helper lemmas about decoration -/

theorem jsFindAttack_all_present (as : List RawAttack)
    (h : ∀ a ∈ as, a.damage ≠ none) :
    jsFindAttack as = .ok (as.find? attackQualifies) := by
  induction as with
  | nil => rfl
  | cons a as ih =>
    cases ha : a.damage with
    | none => exact absurd ha (h a (by simp))
    | some s =>
      have hq : attackQualifies a = decide (jsTrim s ≠ "") := by
        rw [attackQualifies_eq_spec]
        simp [specAttackNonBlank, ha]
      have hd : decoratePred a = .ok (decide (jsTrim s ≠ "")) := by
        simp [decoratePred, ha]
      unfold jsFindAttack
      rw [hd, List.find?_cons, hq]
      by_cases hts : jsTrim s = ""
      · rw [decide_eq_false (not_not_intro hts)]
        exact ih (fun x hx => h x (by simp [hx]))
      · rw [decide_eq_true hts]

/-! ### Claims about the Card Normalizer (import filter and decoration) -/

/-- Claim C2: the import filter accepts a raw catalog record iff its
category field equals the creature category and it has at least one attack
whose damage field is present and non-blank after trimming; a batch import
stores a record iff it is in the batch and accepted, so rejected records
are excluded from the catalog entirely. -/
theorem normalizer_accepts_iff (c : RawCard) (batch stored : List RawCard)
    (h : importCardsFromFile batch = .ok stored) :
    (cardFilterPred c = .ok true ↔ specNormalizeAccepts c = true) ∧
    (c ∈ stored ↔ c ∈ batch ∧ specNormalizeAccepts c = true) := by
  have hf : filterCards batch = .ok stored := by
    unfold importCardsFromFile at h
    cases hfc : filterCards batch with
    | error e => rw [hfc] at h; cases h
    | ok l =>
      rw [hfc] at h
      exact congrArg Except.ok (Except.ok.inj h)
  refine ⟨cardFilterPred_ok_true_iff c, ?_⟩
  rw [filterCards_ok_mem hf c, cardFilterPred_ok_true_iff c]

/-- Witness for C2: the acceptance equivalence and storage equivalence at a
concrete one-record batch. -/
theorem normalizer_accepts_iff_witness :
    (cardFilterPred goodCardExample = .ok true ↔
      specNormalizeAccepts goodCardExample = true) ∧
    (goodCardExample ∈ [goodCardExample] ↔
      goodCardExample ∈ [goodCardExample] ∧
        specNormalizeAccepts goodCardExample = true) :=
  normalizer_accepts_iff goodCardExample [goodCardExample] [goodCardExample]
    (by decide)

/-- Counterexample for C9: in a batch holding one well-formed eligible
record and one record whose `attacks` value makes the filter callback
throw, the whole import is aborted by the surrounding `try`/`catch` and the
eligible record is not stored either, so the error is not confined to the
malformed record. -/
theorem import_error_aborts_batch :
    specNormalizeAccepts goodCardExample = true ∧
    importCardsFromFile [goodCardExample, malformedCardExample] =
      .error "Error importing cards from file" ∧
    storedCards [goodCardExample, malformedCardExample] = [] := by decide

/-- Claim C9 (amended): a record that merely fails eligibility is silently
dropped without aborting the batch — a batch of well-formed records imports
to exactly its eligible records — but a record that makes the filter
callback throw aborts the entire file import and then nothing from the
batch is stored. -/
theorem import_batch_error_handling :
    (∀ batch : List RawCard,
      (∀ c ∈ batch, c.attacks ≠ AttacksField.nonArrayTruthy) →
      importCardsFromFile batch = .ok (batch.filter specNormalizeAccepts)) ∧
    (∀ batch : List RawCard, filterCards batch = .error () →
      storedCards batch = []) := by
  constructor
  · intro batch h
    unfold importCardsFromFile
    rw [filterCards_welltyped batch h]
  · intro batch h
    unfold storedCards importCardsFromFile
    rw [h]

/-- Witness for C9 (amended), at a one-record well-formed batch and at the
aborting two-record batch. -/
theorem import_batch_error_handling_witness :
    importCardsFromFile [goodCardExample] =
      .ok ([goodCardExample].filter specNormalizeAccepts) ∧
    storedCards [malformedCardExample] = [] :=
  ⟨import_batch_error_handling.1 [goodCardExample] (by decide),
   import_batch_error_handling.2 [malformedCardExample] (by decide)⟩

/-- Counterexample for C5: an eligible record (the import filter accepts
it) whose first attack lacks a damage field; decoration does not select the
later attack with non-blank damage but throws a `TypeError`. -/
theorem decorate_missing_first_damage_throws :
    cardFilterPred firstDamageAbsentExample = .ok true ∧
    decorateCard firstDamageAbsentExample = .error DecorateError.typeError := by
  decide

/-- Claim C5 (amended): for every eligible record all of whose attacks have
a present damage field, decoration selects the first attack in list order
whose damage is non-blank and produces a card with exactly that one attack,
its damage integer-parsed from the damage field of that attack. -/
theorem decorate_selects_first_nonblank (c : RawCard) (as : List RawAttack)
    (hatt : c.attacks = AttacksField.list as)
    (hpresent : ∀ a ∈ as, a.damage ≠ none)
    (helig : cardFilterPred c = .ok true) :
    ∃ a, as.find? attackQualifies = some a ∧
      decorateCard c = .ok
        { id := c.id
          name := c.name
          level := jsParseIntOpt c.level
          hp := jsParseIntOpt c.hp
          attack := { name := a.name, damage := jsParseIntOpt a.damage }
          rarity := c.rarity
          images := c.images } := by
  have hany : as.any attackQualifies = true := by
    unfold cardFilterPred at helig
    by_cases hsup : c.supertype = some "Pokémon"
    · rw [if_pos hsup, hatt] at helig
      exact Except.ok.inj helig
    · rw [if_neg hsup] at helig
      cases Except.ok.inj helig
  have hfind : (as.find? attackQualifies).isSome := by
    rw [List.find?_isSome]
    exact List.any_eq_true.mp hany
  obtain ⟨a0, ha0⟩ := Option.isSome_iff_exists.mp hfind
  refine ⟨a0, ha0, ?_⟩
  unfold decorateCard
  simp only [hatt]
  rw [jsFindAttack_all_present as hpresent, ha0]

/-- Witness for C5 (amended): at a concrete eligible record whose first
attack is blank (but present), decoration picks the second attack. -/
theorem decorate_selects_first_nonblank_witness :
    ∃ a, blankFirstAttacksList.find? attackQualifies = some a ∧
      decorateCard blankFirstDamageExample = .ok
        { id := blankFirstDamageExample.id
          name := blankFirstDamageExample.name
          level := jsParseIntOpt blankFirstDamageExample.level
          hp := jsParseIntOpt blankFirstDamageExample.hp
          attack := { name := a.name, damage := jsParseIntOpt a.damage }
          rarity := blankFirstDamageExample.rarity
          images := blankFirstDamageExample.images } :=
  decorate_selects_first_nonblank blankFirstDamageExample blankFirstAttacksList
    rfl (by decide) (by decide)

/-- Claim C10: the import filter and the decoration attack-selection differ
on records whose first attack has no damage field: the filter accepts and
the import stores such a record, but decoration throws a `TypeError` when
it evaluates `trim` on the absent damage of the first attack, so reading
the stored card back in normalized form fails. -/
theorem filter_decorate_predicates_differ :
    cardFilterPred storedUndecoratableExample = .ok true ∧
    importCardsFromFile [storedUndecoratableExample] =
      .ok [storedUndecoratableExample] ∧
    decorateCard storedUndecoratableExample = .error DecorateError.typeError := by
  decide

/-! ### Claims about the Roster Resolver -/

/-- Claim C6: the battle-card lookup reports the not-found outcome exactly
when no roster of any battle holds the id, and otherwise searches the
player-one roster before the player-two roster of the first battle holding
the id and returns the first matching card (never a crash). -/
theorem getBattleCard_contract (battles : List BattleDoc) (cid : String)
    (hne : cid ≠ "") :
    (getBattleCard battles cid = .error LookupError.notFound ↔
      ∀ b ∈ battles, battleContains b cid = false) ∧
    (∀ b, battles.find? (fun x => battleContains x cid) = some b →
      ∃ c, getBattleCard battles cid = .ok (some c) ∧ c.id = cid ∧
        (b.playerOneCards.find? (fun x => x.id == cid) = some c ∨
         (b.playerOneCards.find? (fun x => x.id == cid) = none ∧
          ∃ l, b.playerTwoCards = some l ∧
            l.find? (fun x => x.id == cid) = some c))) := by
  have extract : ∀ b, battles.find? (fun x => battleContains x cid) = some b →
      ∃ c, getBattleCard battles cid = .ok (some c) ∧ c.id = cid ∧
        (b.playerOneCards.find? (fun x => x.id == cid) = some c ∨
         (b.playerOneCards.find? (fun x => x.id == cid) = none ∧
          ∃ l, b.playerTwoCards = some l ∧
            l.find? (fun x => x.id == cid) = some c)) := by
    intro b hb
    have hcont := List.find?_some hb
    have hgb : getBattleCard battles cid =
        (match b.playerOneCards.find? (fun x => x.id == cid) with
         | some c => .ok (some c)
         | none =>
           match b.playerTwoCards with
           | none => .error .typeError
           | some l =>
             match l.find? (fun x => x.id == cid) with
             | some c => .ok (some c)
             | none => .ok none) := by
      unfold getBattleCard
      rw [if_neg hne, hb]
    cases h1 : b.playerOneCards.find? (fun x => x.id == cid) with
    | some c =>
      rw [h1] at hgb
      have hcq := List.find?_some h1
      have hcid : c.id = cid := eq_of_beq hcq
      exact ⟨c, hgb, hcid, Or.inl rfl⟩
    | none =>
      rw [h1] at hgb
      have hp1 : b.playerOneCards.any (fun x => x.id == cid) = false := by
        cases hx : b.playerOneCards.any (fun x => x.id == cid)
        · rfl
        · obtain ⟨x, hxmem, hxid⟩ := List.any_eq_true.mp hx
          exact absurd hxid (List.find?_eq_none.mp h1 x hxmem)
      have hp2 : rosterHas b.playerTwoCards cid = true := by
        simp only [battleContains, rosterHas] at hcont
        rw [hp1] at hcont
        simpa using hcont
      cases h2 : b.playerTwoCards with
      | none =>
        rw [h2] at hp2
        simp [rosterHas] at hp2
      | some l =>
        rw [h2] at hp2
        have hl : l.any (fun x => x.id == cid) = true := by
          simpa [rosterHas] using hp2
        have hfind : (l.find? (fun x => x.id == cid)).isSome := by
          rw [List.find?_isSome]
          exact List.any_eq_true.mp hl
        obtain ⟨c, hc⟩ := Option.isSome_iff_exists.mp hfind
        have hcq := List.find?_some hc
        have hcid : c.id = cid := eq_of_beq hcq
        refine ⟨c, ?_, hcid, Or.inr ⟨rfl, l, rfl, hc⟩⟩
        rw [hgb]
        simp [h2, hc]
  refine ⟨⟨?_, ?_⟩, extract⟩
  · intro hres b hbmem
    cases hbt : battleContains b cid with
    | false => rfl
    | true =>
      cases hf : battles.find? (fun x => battleContains x cid) with
      | none => exact absurd hbt (List.find?_eq_none.mp hf b hbmem)
      | some b0 =>
        obtain ⟨c, hc, _, _⟩ := extract b0 hf
        rw [hres] at hc
        cases hc
  · intro hall
    have hf : battles.find? (fun x => battleContains x cid) = none := by
      rw [List.find?_eq_none]
      intro x hx
      rw [hall x hx]
      simp
    unfold getBattleCard
    rw [if_neg hne, hf]

/-- Witness for C6 at a concrete battle store and card id held by the
player-two roster. -/
theorem getBattleCard_contract_witness :
    (getBattleCard [activeDocExample] "bc2" = .error LookupError.notFound ↔
      ∀ b ∈ [activeDocExample], battleContains b "bc2" = false) ∧
    (∀ b, [activeDocExample].find? (fun x => battleContains x "bc2") = some b →
      ∃ c, getBattleCard [activeDocExample] "bc2" = .ok (some c) ∧ c.id = "bc2" ∧
        (b.playerOneCards.find? (fun x => x.id == "bc2") = some c ∨
         (b.playerOneCards.find? (fun x => x.id == "bc2") = none ∧
          ∃ l, b.playerTwoCards = some l ∧
            l.find? (fun x => x.id == "bc2") = some c))) :=
  getBattleCard_contract [activeDocExample] "bc2" (by decide)

/-! ### Claims about battle creation and persistence updates -/

/-- Counterexample for C7: `createBattle` stores whatever opponent id the
caller passes, so a newly created battle can carry a non-null `playerTwoId`
while still in the `REQUESTED` state. -/
theorem createBattle_stores_opponent :
    (createBattle "u1" (some "u2") [battleCardOneExample] "b9").playerTwoId
      = some "u2" ∧
    (createBattle "u1" (some "u2") [battleCardOneExample] "b9").playerTwoId
      ≠ none ∧
    (createBattle "u1" (some "u2") [battleCardOneExample] "b9").state
      = BattleState.REQUESTED := by
  decide

/-- Claim C7 (amended): every newly created battle is in the `REQUESTED`
initial state, carries the player-one roster as `playerOneCards`, and has
no player-two roster, no rounds and no `winnerId`; its `playerTwoId` is
exactly the opponent id supplied at creation, and no later `updateBattle`
ever changes `playerTwoId`. -/
theorem createBattle_initial_state (p1 : String) (p2 : Option String)
    (cards : List BattleCard) (newId : String) :
    (createBattle p1 p2 cards newId).state = BattleState.REQUESTED ∧
    (createBattle p1 p2 cards newId).playerOneCards = cards ∧
    (createBattle p1 p2 cards newId).playerTwoCards = none ∧
    (createBattle p1 p2 cards newId).rounds = none ∧
    (createBattle p1 p2 cards newId).winnerId = none ∧
    (createBattle p1 p2 cards newId).playerTwoId = p2 ∧
    ∀ (b : BattleDoc) (u : BattleUpdate),
      (applyUpdateDoc b u).playerTwoId = b.playerTwoId :=
  ⟨rfl, rfl, rfl, rfl, rfl, rfl, fun _ _ => rfl⟩

/-- Counterexample for C8: a write computed from a stale `ACTIVE` read is
applied after another writer completed the battle — no conflict is
reported, the state is forced back to `ACTIVE` and the stale write leaves
the already-set winner id in place. -/
theorem updateBattle_applies_stale_write :
    updateBattle [activeDocExample] "b2" completingUpdateExample =
      .ok (completedDocExample, [completedDocExample]) ∧
    updateBattle [completedDocExample] "b2" staleRoundUpdateExample =
      .ok (staleAppliedDocExample, [staleAppliedDocExample]) ∧
    staleAppliedDocExample.state = BattleState.ACTIVE ∧
    staleAppliedDocExample.winnerId = some "u1" := by
  decide

/-- Claim C8 (amended): `updateBattle` is a single write matched on the
battle id alone and carries no optimistic state or round-count predicate:
whenever a battle with the id exists the update succeeds and is applied
regardless of the current state of the battle, so a stale transition is
applied rather than rejected with a conflict error. -/
theorem updateBattle_unconditional (battles : List BattleDoc) (bid : String)
    (u : BattleUpdate) (b : BattleDoc)
    (h : battles.find? (fun x => x.id == bid) = some b) :
    updateBattle battles bid u =
      .ok (applyUpdateDoc b u,
           battles.map (fun x => if x.id == bid then applyUpdateDoc x u else x)) := by
  unfold updateBattle
  rw [h]

/-- Witness for C8 (amended): the stale write against the completed battle
goes through. -/
theorem updateBattle_unconditional_witness :
    updateBattle [completedDocExample] "b2" staleRoundUpdateExample =
      .ok (applyUpdateDoc completedDocExample staleRoundUpdateExample,
           [completedDocExample].map
             (fun x => if x.id == "b2"
                       then applyUpdateDoc x staleRoundUpdateExample else x)) :=
  updateBattle_unconditional [completedDocExample] "b2" staleRoundUpdateExample
    completedDocExample (by decide)

/-! ### Claims about the Round Resolution Engine -/

/-- Claim C1: each side of a round loses exactly the attack damage of the
other side, computed from the pre-round hp of both cards and clamped at 0;
in the concrete scenario of hp 60 / damage 20 against hp 50 / damage 30,
both cards end at 30 hp and the round is a tie. -/
theorem resolveRound_simultaneous_clamped :
    (∀ one two : BattleCard,
      (resolveRound one two).newOne.currentHp
        = max (one.currentHp - two.attackDamage) 0 ∧
      (resolveRound one two).newTwo.currentHp
        = max (two.currentHp - one.attackDamage) 0 ∧
      (resolveRound one two).damageToOne = two.attackDamage ∧
      (resolveRound one two).damageToTwo = one.attackDamage) ∧
    (resolveRound ⟨"x", some "X", 60, 60, 20⟩
        ⟨"y", some "Y", 50, 50, 30⟩).newOne.currentHp = 30 ∧
    (resolveRound ⟨"x", some "X", 60, 60, 20⟩
        ⟨"y", some "Y", 50, 50, 30⟩).newTwo.currentHp = 30 ∧
    (resolveRound ⟨"x", some "X", 60, 60, 20⟩
        ⟨"y", some "Y", 50, 50, 30⟩).winner = RoundWinner.tie :=
  ⟨fun _ _ => ⟨rfl, rfl, rfl, rfl⟩, by decide, by decide, by decide⟩

theorem winner_ite_comm (a b : Int) :
    (if b > 0 ∧ a ≤ 0 then RoundWinner.playerOne
     else if a > 0 ∧ b ≤ 0 then RoundWinner.playerTwo
     else RoundWinner.tie) =
    mirrorWinner (if a > 0 ∧ b ≤ 0 then RoundWinner.playerOne
     else if b > 0 ∧ a ≤ 0 then RoundWinner.playerTwo
     else RoundWinner.tie) := by
  split_ifs <;> first | rfl | (exfalso; omega)

/-- Claim C4: round resolution is commutative in its two arguments — the
result of resolving with the sides swapped is the same outcome with the
two sides swapped. -/
theorem resolveRound_commutative (one two : BattleCard) :
    (resolveRound two one).damageToOne = (resolveRound one two).damageToTwo ∧
    (resolveRound two one).damageToTwo = (resolveRound one two).damageToOne ∧
    (resolveRound two one).newOne = (resolveRound one two).newTwo ∧
    (resolveRound two one).newTwo = (resolveRound one two).newOne ∧
    (resolveRound two one).eliminatedOne = (resolveRound one two).eliminatedTwo ∧
    (resolveRound two one).eliminatedTwo = (resolveRound one two).eliminatedOne ∧
    (resolveRound two one).winner = mirrorWinner (resolveRound one two).winner :=
  ⟨rfl, rfl, rfl, rfl, rfl, rfl,
   winner_ite_comm (clampHp (one.currentHp - two.attackDamage))
     (clampHp (two.currentHp - one.attackDamage))⟩

/-! ### Claims about the Battle State Machine -/

theorem reachable_winner_none {mx : Nat} {b : Battle} (h : Reachable mx b) :
    b.state ≠ BattleState.COMPLETED → b.winnerId = none := by
  induction h with
  | created id p1 p2 roster => intro _; rfl
  | step op hre hok ih =>
    intro hstate
    rename_i b b'
    cases op with
    | join pid roster =>
      simp only [applyOp] at hok
      split_ifs at hok with hg1 hg2 hg3
      have hb : b.state = BattleState.REQUESTED := not_not.mp hg1
      have hw : b.winnerId = none := ih (by rw [hb]; intro hcc; cases hcc)
      cases hok
      exact hw
    | submitRound c1 c2 =>
      simp only [applyOp] at hok
      split_ifs at hok with hg1
      have hb : b.state = BattleState.ACTIVE := not_not.mp hg1
      have hw : b.winnerId = none := ih (by rw [hb]; intro hcc; cases hcc)
      cases hf1 : List.find? (fun c => c.id == c1) b.playerOneCards with
      | none => simp [hf1] at hok
      | some one =>
        cases hf2 : List.find? (fun c => c.id == c2) b.playerTwoCards with
        | none => simp [hf1, hf2] at hok
        | some two =>
          simp only [hf1, hf2] at hok
          split_ifs at hok <;> cases hok <;>
            first | exact hw | exact absurd rfl hstate

/-- Claim C3: a reachable battle in the `COMPLETED` state admits no further
transition — every requested operation fails with the invalid-transition
error, leaving the battle unchanged — and `winnerId` is written at most
once: once set it also forces every operation to fail, and any successful
transition that changes `winnerId` starts from an unset winner and lands in
the terminal state. -/
theorem battle_completed_terminal (mx : Nat) (b : Battle) (h : Reachable mx b) :
    (b.state = BattleState.COMPLETED →
      ∀ op, applyOp mx b op = .error TransitionError.invalidTransition) ∧
    (∀ w, b.winnerId = some w →
      ∀ op, applyOp mx b op = .error TransitionError.invalidTransition) ∧
    (∀ op b', applyOp mx b op = .ok b' → b'.winnerId ≠ b.winnerId →
      b.winnerId = none ∧ b'.state = BattleState.COMPLETED) := by
  have hA : b.state = BattleState.COMPLETED →
      ∀ op, applyOp mx b op = .error TransitionError.invalidTransition := by
    intro hc op
    cases op with
    | join pid roster => simp [applyOp, hc]
    | submitRound c1 c2 => simp [applyOp, hc]
  have hB : ∀ w, b.winnerId = some w → b.state = BattleState.COMPLETED := by
    intro w hw
    by_contra hnc
    have hnone := reachable_winner_none h hnc
    rw [hnone] at hw
    cases hw
  refine ⟨hA, fun w hw op => hA (hB w hw) op, ?_⟩
  intro op b' hok hne
  cases op with
  | join pid roster =>
    simp only [applyOp] at hok
    split_ifs at hok with hg1 hg2 hg3
    cases hok
    exact absurd rfl hne
  | submitRound c1 c2 =>
    simp only [applyOp] at hok
    split_ifs at hok with hg1
    have hb : b.state = BattleState.ACTIVE := not_not.mp hg1
    have hw : b.winnerId = none :=
      reachable_winner_none h (by rw [hb]; intro hcc; cases hcc)
    cases hf1 : List.find? (fun c => c.id == c1) b.playerOneCards with
    | none => simp [hf1] at hok
    | some one =>
      cases hf2 : List.find? (fun c => c.id == c2) b.playerTwoCards with
      | none => simp [hf1, hf2] at hok
      | some two =>
        simp only [hf1, hf2] at hok
        split_ifs at hok <;> cases hok <;>
          first | exact ⟨hw, rfl⟩ | exact absurd rfl hne

/-- Witness for C3: the concrete completed battle, reached by creation, a
join and one roster-wiping round, rejects both further operations. -/
theorem battle_completed_terminal_witness :
    applyOp 10 completedBattleExample (BattleOp.join "u3" [battleCardOneExample])
      = .error TransitionError.invalidTransition ∧
    applyOp 10 completedBattleExample (BattleOp.submitRound "c1" "c2")
      = .error TransitionError.invalidTransition := by
  have h0 : Reachable 10 initialBattleExample :=
    Reachable.created "b1" "u1" none
      [{ id := "c1", name := some "Machamp", hp := 100, currentHp := 100, attackDamage := 50 }]
  have h1 : applyOp 10 initialBattleExample
      (BattleOp.join "u2"
        [{ id := "c2", name := some "Rattata", hp := 30, currentHp := 30, attackDamage := 10 }])
      = .ok joinedBattleExample := by decide
  have h2 : Reachable 10 joinedBattleExample := Reachable.step _ h0 h1
  have h3 : applyOp 10 joinedBattleExample (BattleOp.submitRound "c1" "c2")
      = .ok completedBattleExample := by decide
  have h4 : Reachable 10 completedBattleExample := Reachable.step _ h2 h3
  have hterm := battle_completed_terminal 10 completedBattleExample h4
  exact ⟨hterm.1 rfl _, hterm.1 rfl _⟩

end CardBattle
